import Mathlib

/-!
Shallow embedding of `src/main.py` (Ankit1478/Sales-scraper), a FastAPI relay that
acquires a PhantomBuster worker, launches a scrape job, polls it to completion,
normalizes the result payload and persists per-user session state.

Modelling conventions:
* Machine-level HTTP traffic is replaced by oracles: each outbound request of a
  loop reads the next element of a `Nat`-indexed stream of outcomes, and the
  returned pair carries how many requests were performed.
* Python exceptions are `Except` values.  `PyExc.http` is a raised
  `fastapi.HTTPException`, `PyExc.req` a `requests.exceptions.RequestException`
  (transport failure), `PyExc.py` any other Python exception.  `except` clauses
  of the source are modelled by matching on the corresponding constructors only.
* `time.sleep` has no observable effect and is dropped.
* JSON values are the inductive `Json`; `json.loads` is the executable
  `parseJson` below (integers only, no floats, the common string escapes).
-/

set_option autoImplicit false

/-- JSON values as produced by `json.loads` / `response.json()`.  Python `None`
is `null`, dicts are ordered association lists (lookup takes the last binding,
matching dict construction order). -/
inductive Json where
  | null
  | bool (b : Bool)
  | num (n : Int)
  | str (s : String)
  | arr (elems : List Json)
  | obj (fields : List (String × Json))

/-- `d.get(k)` on a Python dict built from JSON: the last binding wins,
`none` when the key is absent. -/
def pyGetOpt : List (String × Json) → String → Option Json
  | [], _ => none
  | p :: rest, k =>
    match pyGetOpt rest k with
    | some v => some v
    | none => if p.1 == k then some p.2 else none

/-- `d.get(k, default)` on a Python dict built from JSON. -/
def pyGetD (fields : List (String × Json)) (k : String) (d : Json) : Json :=
  (pyGetOpt fields k).getD d

/-- Python truthiness of a JSON value (`bool(v)`). -/
def truthy : Json → Bool
  | .null => false
  | .bool b => b
  | .num n => n != 0
  | .str s => s != ""
  | .arr [] => false
  | .arr (_ :: _) => true
  | .obj [] => false
  | .obj (_ :: _) => true

/-- Python `a or b`: `a` when truthy, else `b`. -/
def pyOr (a b : Json) : Json :=
  if truthy a then a else b

/-- Skip JSON whitespace. -/
def skipWs : List Char → List Char
  | [] => []
  | c :: cs => if c = ' ' ∨ c = '\t' ∨ c = '\n' ∨ c = '\r' then skipWs cs else c :: cs

/-- Parse the remainder of a JSON string literal (after the opening quote),
accumulating decoded characters. -/
def parseStrAux : List Char → List Char → Option (String × List Char)
  | [], _ => none
  | '"' :: rest, acc => some (String.mk acc.reverse, rest)
  | '\\' :: e :: rest, acc =>
    match e with
    | '"' => parseStrAux rest ('"' :: acc)
    | '\\' => parseStrAux rest ('\\' :: acc)
    | '/' => parseStrAux rest ('/' :: acc)
    | 'n' => parseStrAux rest ('\n' :: acc)
    | 't' => parseStrAux rest ('\t' :: acc)
    | 'r' => parseStrAux rest ('\r' :: acc)
    | _ => none
  | c :: rest, acc => parseStrAux rest (c :: acc)

/-- Consume a run of decimal digits, returning their value. -/
def parseDigitsAux : List Char → Nat → Nat × List Char
  | [], acc => (acc, [])
  | c :: rest, acc =>
    if c.isDigit then parseDigitsAux rest (acc * 10 + (c.toNat - 48)) else (acc, c :: rest)

/-- Parse a nonempty run of decimal digits. -/
def parseDigits : List Char → Option (Nat × List Char)
  | [] => none
  | c :: rest =>
    if c.isDigit then some (parseDigitsAux (c :: rest) 0) else none

mutual

/-- Recursive-descent parser for one JSON value (fuel-indexed). -/
def parseVal : Nat → List Char → Option (Json × List Char)
  | 0, _ => none
  | fuel + 1, cs =>
    match skipWs cs with
    | 'n' :: 'u' :: 'l' :: 'l' :: rest => some (.null, rest)
    | 't' :: 'r' :: 'u' :: 'e' :: rest => some (.bool true, rest)
    | 'f' :: 'a' :: 'l' :: 's' :: 'e' :: rest => some (.bool false, rest)
    | '"' :: rest => (parseStrAux rest []).map (fun p => (.str p.1, p.2))
    | '[' :: rest =>
      match skipWs rest with
      | ']' :: rest2 => some (.arr [], rest2)
      | cs2 => (parseElems fuel cs2).map (fun p => (.arr p.1, p.2))
    | '{' :: rest =>
      match skipWs rest with
      | '}' :: rest2 => some (.obj [], rest2)
      | cs2 => (parseMembers fuel cs2).map (fun p => (.obj p.1, p.2))
    | '-' :: rest => (parseDigits rest).map (fun p => (.num (-(Int.ofNat p.1)), p.2))
    | cs2 => (parseDigits cs2).map (fun p => (.num (Int.ofNat p.1), p.2))

/-- Parse the elements of a nonempty JSON array (fuel-indexed). -/
def parseElems : Nat → List Char → Option (List Json × List Char)
  | 0, _ => none
  | fuel + 1, cs =>
    (parseVal fuel cs).bind (fun p =>
      match skipWs p.2 with
      | ',' :: rest => (parseElems fuel rest).map (fun q => (p.1 :: q.1, q.2))
      | ']' :: rest => some ([p.1], rest)
      | _ => none)

/-- Parse the members of a nonempty JSON object (fuel-indexed). -/
def parseMembers : Nat → List Char → Option (List (String × Json) × List Char)
  | 0, _ => none
  | fuel + 1, cs =>
    match skipWs cs with
    | '"' :: rest =>
      (parseStrAux rest []).bind (fun kp =>
        match skipWs kp.2 with
        | ':' :: rest2 =>
          (parseVal fuel rest2).bind (fun vp =>
            match skipWs vp.2 with
            | ',' :: rest3 => (parseMembers fuel rest3).map (fun q => ((kp.1, vp.1) :: q.1, q.2))
            | '}' :: rest3 => some ([(kp.1, vp.1)], rest3)
            | _ => none)
        | _ => none)
    | _ => none

end

/-- Executable model of `json.loads`: parses one JSON document, rejecting
trailing garbage. -/
def parseJson (s : String) : Option Json :=
  match parseVal (2 * s.length + 2) s.toList with
  | some (v, rest) => if skipWs rest = [] then some v else none
  | none => none

/-- A raised `fastapi.HTTPException`: status code and detail message. -/
structure HTTPError where
  status_code : Nat
  detail : String
deriving DecidableEq

/-- A raised Python exception, as observed by the `except` clauses of the
source: `http` is `fastapi.HTTPException`, `req` is
`requests.exceptions.RequestException` (transport failure), `py` is any other
exception (for example `KeyError` or `AttributeError`). -/
inductive PyExc where
  | http (e : HTTPError)
  | req (msg : String)
  | py (msg : String)
deriving DecidableEq

/-- `PhantomBusterClient.max_retries` (main.py line 64). -/
def maxRetries : Nat := 5

/-- `PhantomBusterClient.phantom_ids` (main.py line 62). -/
def phantomIds : List String :=
  ["2696753432671290", "2786592566218024", "8109199544661391"]

/-- Outcome of one `requests.get` against `/agents/fetch`: either an HTTP
response (status code, raw text, and the `status` field of the parsed body) or
a transport-level exception. -/
inductive FetchOutcome where
  | resp (code : Nat) (text : String) (status : Option String)
  | netErr (msg : String)
deriving DecidableEq

/-- `PhantomBusterClient.is_phantom_running` (main.py lines 85-94) applied to
one request outcome: non-200 responses raise `HTTPException(500, ...)`, a
transport failure propagates as a `requests` exception, otherwise the result
is whether the reported status is RUNNING. -/
def isPhantomRunning : FetchOutcome → Except PyExc Bool
  | .resp code text status =>
    if code ≠ 200 then
      .error (.http ⟨500, "Error checking phantom status: " ++ text⟩)
    else
      .ok (status == some "RUNNING")
  | .netErr m => .error (.req m)

/-- The retry loop of `PhantomBusterClient.wait_for_phantom_availability`
(main.py lines 67-83).  `i` is the index of the next status check in the
oracle stream, `fuel` the remaining attempts.  `HTTPException` is caught and
consumes an attempt; any other exception propagates (`.error`).  The second
component is the index after the loop, i.e. the total number of status checks
performed so far. -/
def waitLoop (poll : Nat → FetchOutcome) : Nat → Nat → Except PyExc Bool × Nat
  | i, 0 => (.ok false, i)
  | i, fuel + 1 =>
    match isPhantomRunning (poll i) with
    | .ok true => waitLoop poll (i + 1) fuel
    | .ok false => (.ok true, i + 1)
    | .error (.http _) => waitLoop poll (i + 1) fuel
    | .error e => (.error e, i + 1)

/-- `PhantomBusterClient.wait_for_phantom_availability` for one phantom,
reading its status checks from `poll` starting at index `i`. -/
def waitForPhantomAvailability (poll : Nat → FetchOutcome) (i : Nat) :
    Except PyExc Bool × Nat :=
  waitLoop poll i maxRetries

/-- The worker iteration of `PhantomBusterClient.get_available_phantom`
(main.py lines 96-105) over the remaining phantom ids. -/
def gapLoop (poll : Nat → FetchOutcome) : Nat → List String → Except PyExc String × Nat
  | i, [] =>
    (.error (.http ⟨503, "All phantoms are busy and maximum retry attempts reached"⟩), i)
  | i, pid :: rest =>
    match waitForPhantomAvailability poll i with
    | (.ok true, j) => (.ok pid, j)
    | (.ok false, j) => gapLoop poll j rest
    | (.error e, j) => (.error e, j)

/-- `PhantomBusterClient.get_available_phantom`: first available phantom id,
or `HTTPException(503, ...)` after the whole pool stayed busy.  The second
component counts the status checks performed. -/
def getAvailablePhantom (poll : Nat → FetchOutcome) : Except PyExc String × Nat :=
  gapLoop poll 0 phantomIds

/-- Outcome of one `requests.post` against `/agents/launch`: an HTTP response
(status code, raw text, whether the parsed body mentions
maxParallelismReached, and the containerId field when present) or a
transport-level exception. -/
inductive LaunchOutcome where
  | resp (code : Nat) (text : String) (hasMaxParallelism : Bool) (containerId : Option String)
  | netErr (msg : String)
deriving DecidableEq

/-- The retry loop of `PhantomBusterClient.trigger_phantom` (main.py lines
118-148).  `attempt` is the Python loop index, `fuel` = `maxRetries - attempt`
the remaining iterations.  A 200 response returns its containerId (a missing
key raises `KeyError`); a non-200 response retries only when it mentions
maxParallelismReached and `attempt < max_retries - 1`, otherwise it raises
`HTTPException(500, ...)`; a transport failure on the last attempt raises
`HTTPException(500, ...)`, on earlier attempts it retries.  The 503 raise
after the loop (main.py lines 145-148) is reached only when the loop runs out
of iterations without returning or raising. -/
def tpLoop (launch : Nat → LaunchOutcome) : Nat → Nat → Except PyExc String
  | _, 0 => .error (.http ⟨503, "Maximum retry attempts reached while launching phantom"⟩)
  | attempt, fuel + 1 =>
    match launch attempt with
    | .resp 200 _ _ (some c) => .ok c
    | .resp 200 _ _ none => .error (.py "KeyError: containerId")
    | .resp _ text hasMax _ =>
      if hasMax ∧ attempt < maxRetries - 1 then
        tpLoop launch (attempt + 1) fuel
      else
        .error (.http ⟨500, "Error launching phantom: " ++ text⟩)
    | .netErr m =>
      if attempt = maxRetries - 1 then
        .error (.http ⟨500, "Network error launching phantom: " ++ m⟩)
      else
        tpLoop launch (attempt + 1) fuel

/-- `PhantomBusterClient.trigger_phantom`: run the launch retry loop from
attempt 0 with the full retry budget. -/
def triggerPhantom (launch : Nat → LaunchOutcome) : Except PyExc String :=
  tpLoop launch 0 maxRetries

/-- Outcome of one `requests.get` against `/containers/fetch`: an HTTP
response (status code, raw text, the `status` field and the `error` field of
the parsed body) or a transport-level exception. -/
inductive PollOutcome where
  | resp (code : Nat) (text : String) (status : Option String) (errField : Option String)
  | netErr (msg : String)
deriving DecidableEq

/-- The polling loop of `PhantomBusterClient.check_container_status` (main.py
lines 150-186).  `i` is the index of the next poll, `fuel` the remaining
iterations of `while retry_count < max_retries` (30).  A non-200 response
raises `HTTPException(500, ...)` immediately (not caught by the
`RequestException` handler); `finished` returns; `failed` raises
`HTTPException(500, ...)` with the reported error message (default "Unknown
error"); any other status, and any transport failure, consumes one attempt
and continues.  The second component counts the polls performed. -/
def ccsLoop (poll : Nat → PollOutcome) : Nat → Nat → Except HTTPError Unit × Nat
  | i, 0 => (.error ⟨504, "Container execution timed out"⟩, i)
  | i, fuel + 1 =>
    match poll i with
    | .resp code text status errField =>
      if code ≠ 200 then
        (.error ⟨500, "Failed to check container status: " ++ text⟩, i + 1)
      else if status = some "finished" then
        (.ok (), i + 1)
      else if status = some "failed" then
        (.error ⟨500, "Container execution failed: " ++ errField.getD "Unknown error"⟩, i + 1)
      else
        ccsLoop poll (i + 1) fuel
    | .netErr _ => ccsLoop poll (i + 1) fuel

/-- `check_container_status.max_retries` (main.py line 153). -/
def containerMaxRetries : Nat := 30

/-- `PhantomBusterClient.check_container_status`: run the polling loop from
index 0 with the full 30-poll budget. -/
def checkContainerStatus (poll : Nat → PollOutcome) : Except HTTPError Unit × Nat :=
  ccsLoop poll 0 containerMaxRetries

/-- `LinkedInDataProcessor.process_profile` (main.py lines 192-207): the fixed
projection of one raw record onto the declared profile fields, as the ordered
dict the source builds.  `profileLocation` reads the raw key `location`;
`companyUrl` is the Python `or` of `CompanyUrl` and `regularCompanyUrl`. -/
def processProfile (item : List (String × Json)) : List (String × Json) :=
  [("firstName", pyGetD item "firstName" (.str "")),
   ("lastName", pyGetD item "lastName" (.str "")),
   ("title", pyGetD item "title" (.str "")),
   ("companyName", pyGetD item "companyName" (.str "")),
   ("industry", pyGetD item "industry" (.str "")),
   ("companyLocation", pyGetD item "companyLocation" (.str "")),
   ("profileLocation", pyGetD item "location" (.str "")),
   ("connectionDegree", pyGetD item "connectionDegree" (.str "")),
   ("profileImageUrl", pyGetD item "profileImageUrl" (.str "")),
   ("sharedConnectionsCount", pyGetD item "sharedConnectionsCount" (.num 0)),
   ("defaultProfileUrl", pyGetD item "defaultProfileUrl" (.str "")),
   ("companyUrl", pyOr (pyGetD item "CompanyUrl" (.str "")) (pyGetD item "regularCompanyUrl" (.str "")))]

/-- Outcome of the `requests.get` against an external `jsonUrl`: an HTTP
response (status code and parsed body, `none` when the body is not JSON) or a
raised exception. -/
inductive ExtFetch where
  | resp (code : Nat) (body : Option Json)
  | exc (msg : String)

/-- The list comprehension `[process_profile(item) for item in data]` (main.py
line 284): left to right, raising `AttributeError` at the first element that
is not a dict. -/
def processItems : List Json → Except PyExc (List (List (String × Json)))
  | [] => .ok []
  | .obj fs :: rest => (processItems rest).map (fun r => processProfile fs :: r)
  | _ :: _ => .error (.py "AttributeError: get")

/-- Steps of `fetch_and_clean_data` after the indirection handling (main.py
lines 265-284): `None` data is zero records, a dict is wrapped as a singleton
list, a list is mapped through `process_profile`, anything else raises
`HTTPException(500, ...)`. -/
def shapeStage : Json → Except PyExc (List (List (String × Json)))
  | .null => .ok []
  | .obj fs => processItems [.obj fs]
  | .arr xs => processItems xs
  | .str _ => .error (.http ⟨500, "Unexpected data format received from PhantomBuster: <class str>"⟩)
  | .num _ => .error (.http ⟨500, "Unexpected data format received from PhantomBuster: <class int>"⟩)
  | .bool _ => .error (.http ⟨500, "Unexpected data format received from PhantomBuster: <class bool>"⟩)

/-- The external-URL indirection of `fetch_and_clean_data` (main.py lines
252-263): when the data is a dict containing the key `jsonUrl`, fetch that URL
and continue with its parsed body; otherwise continue with the data as is. -/
def urlStage (d : Json) (ext : String → ExtFetch) : Except PyExc (List (List (String × Json))) :=
  match d with
  | .obj fs =>
    match pyGetOpt fs "jsonUrl" with
    | some (.str u) =>
      match ext u with
      | .exc m => .error (.req m)
      | .resp ecode ebody =>
        if ecode ≠ 200 then
          .error (.http ⟨500, "Failed to fetch JSON from external URL"⟩)
        else
          match ebody with
          | none => .error (.py "Expecting value")
          | some d2 => shapeStage d2
    | some _ => .error (.req "Invalid URL")
    | none => shapeStage (.obj fs)
  | _ => shapeStage d

/-- The result extraction of `fetch_and_clean_data` (main.py lines 229-250):
`resultObject` absent or null raises `HTTPException(500, "No data received
from PhantomBuster")`; a string value is decoded with `json.loads`, a decode
failure raising `HTTPException(500, "Invalid data format received from
PhantomBuster")`; any other value passes through unchanged. -/
def decodeStage (result : Json) (ext : String → ExtFetch) :
    Except PyExc (List (List (String × Json))) :=
  match result with
  | .null => .error (.http ⟨500, "No data received from PhantomBuster"⟩)
  | .str s =>
    match parseJson s with
    | none => .error (.http ⟨500, "Invalid data format received from PhantomBuster"⟩)
    | some d => urlStage d ext
  | d => urlStage d ext

/-- The whole `try` block of `fetch_and_clean_data` (main.py lines 222-284):
`body` is the parsed response body (`none` when `response.json()` raises), the
`.get` call raising `AttributeError` when the body is not a dict.  A value
that is JSON null and an absent key are both Python `None`. -/
def facdTry (body : Option Json) (ext : String → ExtFetch) :
    Except PyExc (List (List (String × Json))) :=
  match body with
  | none => .error (.py "Expecting value")
  | some (.obj bs) => decodeStage (pyGetD bs "resultObject" .null) ext
  | some _ => .error (.py "AttributeError: get")

/-- The catch-all `except Exception` of `fetch_and_clean_data` (main.py lines
286-291): every exception raised inside the `try`, raised `HTTPException`
included, is re-raised as `HTTPException(500, "Error processing data: " +
str(e))`, where `str` of an `HTTPException` is `"code: detail"`. -/
def wrapProcessingExc : PyExc → HTTPError
  | .http e => ⟨500, "Error processing data: " ++ toString e.status_code ++ ": " ++ e.detail⟩
  | .req m => ⟨500, "Error processing data: " ++ m⟩
  | .py m => ⟨500, "Error processing data: " ++ m⟩

/-- `LinkedInDataProcessor.fetch_and_clean_data` (main.py lines 209-291):
`code`, `text`, `body` describe the response of the fetch-result-object
request, `ext` answers the optional external `jsonUrl` fetch.  A non-200
response raises `HTTPException(500, ...)` before the `try`; everything inside
the `try` is wrapped by the catch-all handler. -/
def fetchAndCleanData (code : Nat) (text : String) (body : Option Json)
    (ext : String → ExtFetch) : Except HTTPError (List (List (String × Json))) :=
  if code ≠ 200 then
    .error ⟨500, "Failed to fetch data: " ++ text⟩
  else
    match facdTry body ext with
    | .ok r => .ok r
    | .error e => .error (wrapProcessingExc e)

/-- A value stored in a Firestore document field: a string, or the
server-assigned timestamp sentinel `firestore.SERVER_TIMESTAMP`. -/
inductive StoreVal where
  | s (v : String)
  | serverTimestamp
deriving DecidableEq

/-- The fields of one Firestore document. -/
abbrev Doc := List (String × StoreVal)

/-- One write against the session store: `set` creates or replaces the whole
document, `update` overwrites the listed fields of an existing document. -/
inductive WriteOp where
  | set (id : String) (fields : Doc)
  | update (id : String) (fields : Doc)
deriving DecidableEq

/-- The document id a write targets. -/
def writeId : WriteOp → String
  | .set i _ => i
  | .update i _ => i

/-- The fields a write carries. -/
def writeFields : WriteOp → Doc
  | .set _ f => f
  | .update _ f => f

/-- Which of the launch / poll / normalize stages the endpoint entered. -/
structure Stages where
  launchCalled : Bool
  statusPollCalled : Bool
  normalizeCalled : Bool
deriving DecidableEq

/-- The JSON body returned by a successful `/scrape` request (main.py lines
414-418). -/
structure ScrapeResponse where
  events : List (List (String × Json))
  userId : String
  message : String

/-- The generic `except Exception` handler of the endpoint (main.py lines
420-427): a raised `HTTPException` is re-raised unchanged, any other
exception becomes `HTTPException(500, "Internal server error: " + str(e))`. -/
def endpointExc : PyExc → HTTPError
  | .http e => e
  | .req m => ⟨500, "Internal server error: " ++ m⟩
  | .py m => ⟨500, "Internal server error: " ++ m⟩

/-- `search_sales_navigator` (main.py lines 365-427), the `POST /scrape`
handler, for an authenticated user with uid `uid`.  Oracles: `agentPoll`
answers the worker status checks, `launchResp` the launch attempts,
`containerPoll` the job status polls; `resCode`/`resText`/`resBody` describe
the fetch-result-object response and `ext` the optional external fetch.
`store` is the set of existing user documents (id and fields).  The result
carries the HTTP outcome, the list of session-store writes performed, and
which stages were entered. -/
def searchSalesNavigator (agentPoll : Nat → FetchOutcome)
    (launchResp : Nat → LaunchOutcome) (containerPoll : Nat → PollOutcome)
    (resCode : Nat) (resText : String) (resBody : Option Json)
    (ext : String → ExtFetch) (url cookie uid : String)
    (store : List (String × Doc)) :
    Except HTTPError ScrapeResponse × List WriteOp × Stages :=
  match getAvailablePhantom agentPoll with
  | (.error e, _) => (.error (endpointExc e), [], ⟨false, false, false⟩)
  | (.ok _, _) =>
    match triggerPhantom launchResp with
    | .error e => (.error (endpointExc e), [], ⟨true, false, false⟩)
    | .ok _ =>
      match checkContainerStatus containerPoll with
      | (.error e, _) => (.error e, [], ⟨true, true, false⟩)
      | (.ok _, _) =>
        match fetchAndCleanData resCode resText resBody ext with
        | .error e => (.error e, [], ⟨true, true, true⟩)
        | .ok results =>
          let userData : Doc := [("Events_URL", .s url), ("sessionCookie", .s cookie)]
          let w : WriteOp :=
            if (store.find? (fun p => p.1 == uid)).isSome then .update uid userData
            else .set uid userData
          (.ok ⟨results, uid, url⟩, [w], ⟨true, true, true⟩)

/-- Lookup misses every association list whose keys avoid the query key. -/
theorem pyGetOpt_eq_none_of_not_mem (l : List (String × Json)) (k : String)
    (h : k ∉ l.map Prod.fst) : pyGetOpt l k = none := by
  induction l with
  | nil => rfl
  | cons p rest ih =>
    simp only [List.map_cons, List.mem_cons] at h
    push_neg at h
    simp [pyGetOpt, ih h.2, beq_iff_eq, Ne.symm h.1]

/-- **C1.** The claim says that when every launch attempt is answered with the
maximum-parallelism condition, `trigger_phantom` raises the 503
`AllWorkersBusy` outcome ("Maximum retry attempts reached while launching
phantom").  The code instead raises `HTTPException(500, "Error launching
phantom: ...")` on the fifth attempt, because the retry `continue` is guarded
by `attempt < max_retries - 1`, which leaves the 503 raise after the loop
unreachable.  This theorem evaluates the embedded code at the failing input:
all five attempts report maximum parallelism, and the result is the 500
`LaunchFailed` outcome. -/
theorem c1_trigger_phantom_exhausted_parallelism_raises_500 :
    triggerPhantom (fun _ => .resp 429 "maxParallelismReached" true none)
      = .error (.http ⟨500, "Error launching phantom: maxParallelismReached"⟩) := by
  rfl

/-- **C8.** Normalizing the raw record with firstName "A", lastName "B" and
CompanyUrl "x" yields a record carrying every declared profile field, with
firstName "A", lastName "B", companyUrl "x", sharedConnectionsCount 0 and
every remaining string field empty; and for every raw record the output keys
are exactly the twelve declared fields, so unknown input keys are dropped and
a record is never rejected for missing fields. -/
theorem c8_round_trip_defaults :
    (processProfile [("firstName", .str "A"), ("lastName", .str "B"), ("CompanyUrl", .str "x")] =
      [("firstName", .str "A"), ("lastName", .str "B"), ("title", .str ""),
       ("companyName", .str ""), ("industry", .str ""), ("companyLocation", .str ""),
       ("profileLocation", .str ""), ("connectionDegree", .str ""),
       ("profileImageUrl", .str ""), ("sharedConnectionsCount", .num 0),
       ("defaultProfileUrl", .str ""), ("companyUrl", .str "x")])
    ∧ ∀ item, (processProfile item).map Prod.fst =
      ["firstName", "lastName", "title", "companyName", "industry", "companyLocation",
       "profileLocation", "connectionDegree", "profileImageUrl", "sharedConnectionsCount",
       "defaultProfileUrl", "companyUrl"] := by
  exact ⟨rfl, fun item => rfl⟩

/-- **C10.** For every raw record whose CompanyUrl value is the string `s`
(the empty string standing in when the key is absent), the normalized
companyUrl field is `s` when `s` is nonempty and otherwise the value at
regularCompanyUrl (defaulting to the empty string); in particular a record
with CompanyUrl empty and regularCompanyUrl "y" normalizes to companyUrl
"y". -/
theorem c10_company_url_fallback (fs : List (String × Json)) (s : String)
    (h : pyGetD fs "CompanyUrl" (Json.str "") = Json.str s) :
    (pyGetOpt (processProfile fs) "companyUrl"
      = some (if s = "" then pyGetD fs "regularCompanyUrl" (Json.str "") else Json.str s))
    ∧ pyGetOpt (processProfile [("CompanyUrl", Json.str ""), ("regularCompanyUrl", Json.str "y")])
        "companyUrl" = some (Json.str "y") := by
  refine ⟨?_, rfl⟩
  simp only [processProfile, pyGetOpt, h]
  by_cases hs : s = "" <;> simp [pyOr, truthy, hs]

/-- Witness for C10 at the concrete record with CompanyUrl "q". -/
theorem c10_company_url_fallback_witness :
    (pyGetOpt (processProfile [("CompanyUrl", Json.str "q")]) "companyUrl"
      = some (if "q" = "" then pyGetD [("CompanyUrl", Json.str "q")] "regularCompanyUrl" (Json.str "")
              else Json.str "q"))
    ∧ pyGetOpt (processProfile [("CompanyUrl", Json.str ""), ("regularCompanyUrl", Json.str "y")])
        "companyUrl" = some (Json.str "y") :=
  c10_company_url_fallback [("CompanyUrl", Json.str "q")] "q" rfl

/-- **C2, counterexample.** The claim says a payload whose resultObject is
null makes `fetch_and_clean_data` return an empty sequence without error.  At
the concrete payload with resultObject literally null, the code instead
raises: the `result is None` check fires and the raised
`HTTPException(500, "No data received from PhantomBuster")` is re-wrapped by
the catch-all handler. -/
theorem c2_null_result_object_counterexample :
    fetchAndCleanData 200 "" (some (.obj [("resultObject", Json.null)])) (fun _ => .exc "unused")
      = .error ⟨500, "Error processing data: 500: No data received from PhantomBuster"⟩ := by
  rfl

/-- **C2, amended.** For every result payload whose resultObject field is
null (or absent), `fetch_and_clean_data` raises the wrapped 500 "No data
received from PhantomBuster" error rather than returning an empty sequence;
the zero-record success without error applies only when the data becomes null
later, for example when resultObject is the JSON text "null", which
string-decodes to null. -/
theorem c2_null_result_object_amended (bs : List (String × Json)) (text : String)
    (ext : String → ExtFetch) :
    (pyGetD bs "resultObject" Json.null = Json.null →
      fetchAndCleanData 200 text (some (.obj bs)) ext
        = .error ⟨500, "Error processing data: 500: No data received from PhantomBuster"⟩)
    ∧ fetchAndCleanData 200 text (some (.obj [("resultObject", Json.str "null")])) ext
        = .ok [] := by
  constructor
  · intro h
    simp [fetchAndCleanData, facdTry, h, decodeStage, wrapProcessingExc]
    rfl
  · rfl

/-- Witness for C2 (amended) at a payload whose resultObject key is absent. -/
theorem c2_null_result_object_amended_witness :
    (fetchAndCleanData 200 "t" (some (.obj [("other", Json.num 1)])) (fun _ => .exc "w")
        = .error ⟨500, "Error processing data: 500: No data received from PhantomBuster"⟩)
    ∧ fetchAndCleanData 200 "t" (some (.obj [("resultObject", Json.str "null")]))
        (fun _ => .exc "w") = .ok [] :=
  ⟨(c2_null_result_object_amended [("other", Json.num 1)] "t" (fun _ => .exc "w")).1 rfl,
   (c2_null_result_object_amended [("other", Json.num 1)] "t" (fun _ => .exc "w")).2⟩

/-- **C7, counterexample.** The claim says every payload whose (possibly
string-decoded) value is a single JSON object yields a one-element sequence.
A single object containing the key jsonUrl is instead treated as an
external-URL indirection: at this concrete payload the external fetch returns
a two-element list and `fetch_and_clean_data` returns two records, not
one. -/
theorem c7_json_url_counterexample :
    (fetchAndCleanData 200 ""
        (some (.obj [("resultObject", .obj [("jsonUrl", .str "r")])]))
        (fun _ => .resp 200 (some (.arr [.obj [], .obj []])))).map List.length
      = .ok 2 := by
  rfl

/-- **C7, amended.** For every result payload whose (possibly string-decoded)
value is a single JSON object that does not contain the key jsonUrl,
`fetch_and_clean_data` returns the one-element sequence holding that object
normalized by `process_profile`: directly when resultObject is the object
itself, and through `json.loads` when resultObject is a string decoding to
the object. -/
theorem c7_single_object_amended (bs fs : List (String × Json)) (text s : String)
    (ext : String → ExtFetch) (hnj : "jsonUrl" ∉ fs.map Prod.fst) :
    (pyGetD bs "resultObject" Json.null = Json.obj fs →
      fetchAndCleanData 200 text (some (.obj bs)) ext = .ok [processProfile fs])
    ∧ (pyGetD bs "resultObject" Json.null = Json.str s → parseJson s = some (Json.obj fs) →
      fetchAndCleanData 200 text (some (.obj bs)) ext = .ok [processProfile fs]) := by
  have hurl : urlStage (Json.obj fs) ext = .ok [processProfile fs] := by
    simp [urlStage, pyGetOpt_eq_none_of_not_mem fs "jsonUrl" hnj, shapeStage, processItems,
      Except.map]
  constructor
  · intro h
    simp [fetchAndCleanData, facdTry, h, decodeStage, hurl]
  · intro h hp
    simp [fetchAndCleanData, facdTry, h, decodeStage, hp, hurl]

/-- Witness for C7 (amended) at a payload carrying the object inline and at
one carrying it as a JSON string. -/
theorem c7_single_object_amended_witness :
    (fetchAndCleanData 200 "t"
        (some (.obj [("resultObject", .obj [("firstName", Json.str "A")])]))
        (fun _ => .exc "w") = .ok [processProfile [("firstName", Json.str "A")]])
    ∧ fetchAndCleanData 200 "t"
        (some (.obj [("resultObject", Json.str "\x7b\"firstName\": \"A\"\x7d")]))
        (fun _ => .exc "w") = .ok [processProfile [("firstName", Json.str "A")]] :=
  ⟨(c7_single_object_amended [("resultObject", .obj [("firstName", Json.str "A")])]
      [("firstName", Json.str "A")] "t" "" (fun _ => .exc "w") (by decide)).1 rfl,
   (c7_single_object_amended [("resultObject", Json.str "\x7b\"firstName\": \"A\"\x7d")]
      [("firstName", Json.str "A")] "t" "\x7b\"firstName\": \"A\"\x7d" (fun _ => .exc "w")
      (by decide)).2 rfl (by rfl)⟩

/-- **C4, counterexample.** The claim says every status-check failure during
worker acquisition, transport-level errors included, is treated like "still
busy" and only consumes one retry attempt.  At the concrete pool where the
very first status check raises a transport error, acquisition aborts
immediately after one check — the `except HTTPException` clause does not
catch `requests` exceptions — with fourteen checks of budget remaining. -/
theorem c4_transport_error_aborts_counterexample :
    getAvailablePhantom (fun _ => .netErr "connection error")
      = (.error (.req "connection error"), 1) := by
  rfl

/-- **C4, amended.** During worker acquisition a provider error response (a
non-200 status fetch, raised as `HTTPException` by `is_phantom_running`) is
treated exactly like a "still busy" observation: both consume one attempt and
continue with the same retry loop after the delay.  A transport-level
exception, by contrast, is not caught: it aborts the loop immediately with
the exception, however much budget remains. -/
theorem c4_provider_error_like_busy_amended (poll : Nat → FetchOutcome)
    (i fuel code : Nat) (t m : String) (st : Option String) :
    (poll i = .resp code t st → code ≠ 200 →
      waitLoop poll i (fuel + 1) = waitLoop poll (i + 1) fuel)
    ∧ (poll i = .resp 200 t (some "RUNNING") →
      waitLoop poll i (fuel + 1) = waitLoop poll (i + 1) fuel)
    ∧ (poll i = .netErr m →
      waitLoop poll i (fuel + 1) = (.error (.req m), i + 1)) := by
  refine ⟨fun h hc => ?_, fun h => ?_, fun h => ?_⟩
  · simp [waitLoop, isPhantomRunning, h, hc]
  · simp [waitLoop, isPhantomRunning, h]
  · simp [waitLoop, isPhantomRunning, h]

/-- Witness for C4 (amended) at a pool whose checks answer, in order, a
provider 500, a busy RUNNING, and a transport error. -/
theorem c4_provider_error_like_busy_amended_witness :
    (waitLoop (fun i => if i = 0 then .resp 500 "boom" none
        else if i = 1 then .resp 200 "" (some "RUNNING") else .netErr "reset") 0 5
      = waitLoop (fun i => if i = 0 then .resp 500 "boom" none
        else if i = 1 then .resp 200 "" (some "RUNNING") else .netErr "reset") 1 4)
    ∧ (waitLoop (fun i => if i = 0 then .resp 500 "boom" none
        else if i = 1 then .resp 200 "" (some "RUNNING") else .netErr "reset") 1 4
      = waitLoop (fun i => if i = 0 then .resp 500 "boom" none
        else if i = 1 then .resp 200 "" (some "RUNNING") else .netErr "reset") 2 3)
    ∧ (waitLoop (fun i => if i = 0 then .resp 500 "boom" none
        else if i = 1 then .resp 200 "" (some "RUNNING") else .netErr "reset") 2 3
      = (.error (.req "reset"), 3)) :=
  ⟨(c4_provider_error_like_busy_amended _ 0 4 500 "boom" "reset" none).1 rfl (by decide),
   (c4_provider_error_like_busy_amended _ 1 3 200 "" "reset" (some "RUNNING")).2.1 rfl,
   (c4_provider_error_like_busy_amended _ 2 2 200 "" "reset" none).2.2 rfl⟩

/-- **C9.** During job-status polling a non-success HTTP response aborts
`check_container_status` immediately with a 500 error after that single
check, whatever retry budget remains — the raised `HTTPException` is not
caught by the `except RequestException` clause — while a transport-level
exception on the same fetch consumes one attempt and lets polling continue;
in particular a non-200 response on the very first poll ends the whole
30-poll loop after exactly one check. -/
theorem c9_non_success_poll_aborts (poll : Nat → PollOutcome)
    (i fuel code : Nat) (t m : String) (st ef : Option String) :
    (poll i = .resp code t st ef → code ≠ 200 →
      ccsLoop poll i (fuel + 1) = (.error ⟨500, "Failed to check container status: " ++ t⟩, i + 1))
    ∧ (poll i = .netErr m → ccsLoop poll i (fuel + 1) = ccsLoop poll (i + 1) fuel)
    ∧ (poll 0 = .resp code t st ef → code ≠ 200 →
      checkContainerStatus poll = (.error ⟨500, "Failed to check container status: " ++ t⟩, 1)) := by
  refine ⟨fun h hc => ?_, fun h => ?_, fun h hc => ?_⟩
  · simp [ccsLoop, h, hc]
  · simp [ccsLoop, h]
  · simp [checkContainerStatus, containerMaxRetries, ccsLoop, h, hc]

/-- Witness for C9 at a poll stream answering a transport error and then a
502 response. -/
theorem c9_non_success_poll_aborts_witness :
    (ccsLoop (fun i => if i = 0 then .netErr "reset" else .resp 502 "bad gateway" none none) 1 29
      = (.error ⟨500, "Failed to check container status: bad gateway"⟩, 2))
    ∧ (ccsLoop (fun i => if i = 0 then .netErr "reset" else .resp 502 "bad gateway" none none) 0 30
      = ccsLoop (fun i => if i = 0 then .netErr "reset" else .resp 502 "bad gateway" none none) 1 29)
    ∧ checkContainerStatus (fun _ => .resp 502 "bad gateway" none none)
      = (.error ⟨500, "Failed to check container status: bad gateway"⟩, 1) :=
  ⟨(c9_non_success_poll_aborts _ 1 28 502 "bad gateway" "reset" none none).1 rfl (by decide),
   (c9_non_success_poll_aborts _ 0 29 502 "bad gateway" "reset" none none).2.1 rfl,
   (c9_non_success_poll_aborts (fun _ => .resp 502 "bad gateway" none none) 0 0 502
      "bad gateway" "reset" none none).2.2 rfl (by decide)⟩

/-- A worker that reports RUNNING on every remaining attempt exhausts the
retry budget: the wait loop returns `False` after performing exactly `fuel`
status checks. -/
theorem waitLoop_all_busy (poll : Nat → FetchOutcome) (fuel : Nat) :
    ∀ i, (∀ j, j < fuel → ∃ t, poll (i + j) = .resp 200 t (some "RUNNING")) →
      waitLoop poll i fuel = (.ok false, i + fuel) := by
  induction fuel with
  | zero => intro i _; simp [waitLoop]
  | succ fuel ih =>
    intro i h
    obtain ⟨t, ht⟩ := h 0 (Nat.succ_pos _)
    rw [Nat.add_zero] at ht
    have step : waitLoop poll i (fuel + 1) = waitLoop poll (i + 1) fuel := by
      simp [waitLoop, isPhantomRunning, ht]
    rw [step, ih (i + 1) (fun j hj => by
      have hj2 := h (j + 1) (by omega)
      have e : i + (j + 1) = i + 1 + j := by omega
      rw [e] at hj2
      exact hj2)]
    simp only [Prod.mk.injEq, true_and]
    omega

/-- **C5.** When every status check of the pool reports RUNNING,
`get_available_phantom` performs exactly pool_size × MAX_RETRIES = 3 × 5 = 15
status checks and raises `HTTPException(503, ...)`; on the endpoint this run
returns that 503 with no session-store write and without the launch, poll or
normalize stage ever being entered. -/
theorem c5_all_busy_503_no_stages (agentPoll : Nat → FetchOutcome)
    (launchResp : Nat → LaunchOutcome) (containerPoll : Nat → PollOutcome)
    (resCode : Nat) (resText : String) (resBody : Option Json)
    (ext : String → ExtFetch) (url cookie uid : String) (store : List (String × Doc))
    (h : ∀ i, i < 15 → ∃ t, agentPoll i = FetchOutcome.resp 200 t (some "RUNNING")) :
    getAvailablePhantom agentPoll
      = (.error (.http ⟨503, "All phantoms are busy and maximum retry attempts reached"⟩), 15)
    ∧ searchSalesNavigator agentPoll launchResp containerPoll resCode resText resBody ext
        url cookie uid store
      = (.error ⟨503, "All phantoms are busy and maximum retry attempts reached"⟩, [],
          ⟨false, false, false⟩) := by
  have w0 := waitLoop_all_busy agentPoll 5 0 (fun j hj => by simpa using h j (by omega))
  have w1 := waitLoop_all_busy agentPoll 5 5 (fun j hj => h (5 + j) (by omega))
  have w2 := waitLoop_all_busy agentPoll 5 10 (fun j hj => h (10 + j) (by omega))
  have hg : getAvailablePhantom agentPoll
      = (.error (.http ⟨503, "All phantoms are busy and maximum retry attempts reached"⟩), 15) := by
    simp [getAvailablePhantom, phantomIds, gapLoop, waitForPhantomAvailability, maxRetries,
      w0, w1, w2]
  exact ⟨hg, by simp [searchSalesNavigator, hg, endpointExc]⟩

/-- Witness for C5 at the pool whose every status check reports RUNNING. -/
theorem c5_all_busy_503_no_stages_witness :
    getAvailablePhantom (fun _ => .resp 200 "" (some "RUNNING"))
      = (.error (.http ⟨503, "All phantoms are busy and maximum retry attempts reached"⟩), 15)
    ∧ searchSalesNavigator (fun _ => .resp 200 "" (some "RUNNING"))
        (fun _ => .netErr "w") (fun _ => .netErr "w") 200 "" none (fun _ => .exc "w")
        "U" "C" "u1" []
      = (.error ⟨503, "All phantoms are busy and maximum retry attempts reached"⟩, [],
          ⟨false, false, false⟩) :=
  c5_all_busy_503_no_stages (fun _ => .resp 200 "" (some "RUNNING")) (fun _ => .netErr "w")
    (fun _ => .netErr "w") 200 "" none (fun _ => .exc "w") "U" "C" "u1" []
    (fun _ _ => ⟨"", rfl⟩)

/-- A prefix of polls that all answer 200 with a non-terminal status is
skipped over: the loop continues at the index past the prefix with the
correspondingly reduced budget. -/
theorem ccsLoop_skip (poll : Nat → PollOutcome) (n : Nat) :
    ∀ i fuel, n ≤ fuel →
      (∀ j, j < n → ∃ tx s ef, poll (i + j) = .resp 200 tx (some s) ef ∧
        s ≠ "finished" ∧ s ≠ "failed") →
      ccsLoop poll i fuel = ccsLoop poll (i + n) (fuel - n) := by
  induction n with
  | zero => intro i fuel _ _; simp
  | succ n ih =>
    intro i fuel hle h
    obtain ⟨fuel2, rfl⟩ : ∃ m, fuel = m + 1 := ⟨fuel - 1, by omega⟩
    obtain ⟨tx, s, ef, hp, hf, hfa⟩ := h 0 (Nat.succ_pos _)
    rw [Nat.add_zero] at hp
    have step : ccsLoop poll i (fuel2 + 1) = ccsLoop poll (i + 1) fuel2 := by
      simp [ccsLoop, hp, hf, hfa]
    rw [step, ih (i + 1) fuel2 (by omega) (fun j hj => by
      have h2 := h (j + 1) (by omega)
      have e : i + (j + 1) = i + 1 + j := by omega
      rw [e] at h2
      exact h2)]
    have e1 : i + 1 + n = i + (n + 1) := by omega
    have e2 : fuel2 - n = fuel2 + 1 - (n + 1) := by omega
    rw [e1, e2]

/-- **C6.** For every sequence of job statuses whose first terminal status is
`finished` at position k ≤ 30 (positions 1-based, all earlier polls answering
200 with a non-terminal status), `check_container_status` returns normally
after performing exactly k status checks; and for every sequence with no
terminal status in its first 30 polls it raises `HTTPException(504,
"Container execution timed out")` after the full 30-poll budget. -/
theorem c6_await_completion_counts (st t : Nat → String) (e : Nat → Option String) (k : Nat) :
    (1 ≤ k → k ≤ 30 →
      (∀ i, i + 1 < k → st i ≠ "finished" ∧ st i ≠ "failed") →
      st (k - 1) = "finished" →
      checkContainerStatus (fun i => .resp 200 (t i) (some (st i)) (e i)) = (.ok (), k))
    ∧ ((∀ i, i < 30 → st i ≠ "finished" ∧ st i ≠ "failed") →
      checkContainerStatus (fun i => .resp 200 (t i) (some (st i)) (e i))
        = (.error ⟨504, "Container execution timed out"⟩, 30)) := by
  constructor
  · intro h1 h30 hpre hfin
    have skip := ccsLoop_skip (fun i => .resp 200 (t i) (some (st i)) (e i)) (k - 1) 0 30
      (by omega)
      (fun j hj => ⟨t (0 + j), st (0 + j), e (0 + j), rfl,
        by simpa using (hpre j (by omega)).1, by simpa using (hpre j (by omega)).2⟩)
    have e3 : 0 + (k - 1) = k - 1 := by omega
    have e2 : 30 - (k - 1) = (30 - k) + 1 := by omega
    rw [e3, e2] at skip
    have e4 : k - 1 + 1 = k := by omega
    simp only [checkContainerStatus, containerMaxRetries]
    rw [skip]
    simp [ccsLoop, hfin, e4]
  · intro hpre
    have skip := ccsLoop_skip (fun i => .resp 200 (t i) (some (st i)) (e i)) 30 0 30
      (by omega)
      (fun j hj => ⟨t (0 + j), st (0 + j), e (0 + j), rfl,
        by simpa using (hpre j (by omega)).1, by simpa using (hpre j (by omega)).2⟩)
    simp only [checkContainerStatus, containerMaxRetries]
    rw [skip]
    simp [ccsLoop]

/-- Witness for C6: a job that reports running twice then finished returns
after 3 checks; a job that only ever reports running times out at 30
checks. -/
theorem c6_await_completion_counts_witness :
    checkContainerStatus
        (fun i => .resp 200 "" (some (if i < 2 then "running" else "finished")) none)
      = (.ok (), 3)
    ∧ checkContainerStatus (fun _ => .resp 200 "" (some "running") none)
      = (.error ⟨504, "Container execution timed out"⟩, 30) :=
  ⟨(c6_await_completion_counts (fun i => if i < 2 then "running" else "finished")
      (fun _ => "") (fun _ => none) 3).1 (by decide) (by decide)
      (fun i hi => by
        have h2 : i < 2 := by omega
        simp [h2])
      (by decide),
   (c6_await_completion_counts (fun _ => "running") (fun _ => "") (fun _ => none) 0).2
      (fun i _ => by decide)⟩

/-- **C3, counterexample.** The claim says every session-store write of a
successful request includes a server-assigned last-updated timestamp.  At
this concrete successful request (idle worker, immediate launch, finished on
the first poll, empty result list, user absent from the store) the endpoint
performs exactly one write, and its fields are exactly the search URL and the
session cookie: no last_updated field and no server-timestamp sentinel is
written, because the handler inlines the write and never calls the
timestamp-adding `updateUser` helper. -/
theorem c3_no_timestamp_counterexample :
    searchSalesNavigator (fun _ => .resp 200 "" (some "idle"))
        (fun _ => .resp 200 "" false (some "C1"))
        (fun _ => .resp 200 "" (some "finished") none)
        200 "" (some (.obj [("resultObject", .arr [])])) (fun _ => .exc "unused")
        "U" "C" "u1" []
      = (.ok ⟨[], "u1", "U"⟩, [.set "u1" [("Events_URL", .s "U"), ("sessionCookie", .s "C")]],
          ⟨true, true, true⟩)
    ∧ "last_updated" ∉
        (writeFields (.set "u1" [("Events_URL", .s "U"), ("sessionCookie", .s "C")])).map Prod.fst
    ∧ StoreVal.serverTimestamp ∉
        (writeFields (.set "u1" [("Events_URL", .s "U"), ("sessionCookie", .s "C")])).map Prod.snd := by
  exact ⟨rfl, by decide, by decide⟩

/-- **C3, amended.** On every successful request exactly one session-store
write occurs before the response is returned: the document of the
authenticated user is created when absent and otherwise its two tracked
fields are overwritten; the write carries exactly the search URL and the
session cookie and, contrary to the original claim, no server-assigned
timestamp — the timestamp-adding `updateUser` helper exists in the source but
is never invoked by the endpoint. -/
theorem c3_single_write_amended (agentPoll : Nat → FetchOutcome)
    (launchResp : Nat → LaunchOutcome) (containerPoll : Nat → PollOutcome)
    (resCode : Nat) (resText : String) (resBody : Option Json)
    (ext : String → ExtFetch) (url cookie uid : String) (store : List (String × Doc))
    (r : ScrapeResponse) (log : List WriteOp) (stg : Stages)
    (h : searchSalesNavigator agentPoll launchResp containerPoll resCode resText resBody ext
        url cookie uid store = (.ok r, log, stg)) :
    log.length = 1 ∧
    ∀ w ∈ log,
      writeId w = uid ∧
      writeFields w = [("Events_URL", StoreVal.s url), ("sessionCookie", StoreVal.s cookie)] ∧
      StoreVal.serverTimestamp ∉ (writeFields w).map Prod.snd ∧
      (match w with
       | .set _ _ => (store.find? (fun p => p.1 == uid)) = none
       | .update _ _ => (store.find? (fun p => p.1 == uid)).isSome = true) := by
  unfold searchSalesNavigator at h
  split at h
  · simp at h
  · split at h
    · simp at h
    · split at h
      · simp at h
      · split at h
        · simp at h
        · simp only [Prod.mk.injEq] at h
          obtain ⟨hr, hlog, hstg⟩ := h
          subst hlog
          refine ⟨rfl, ?_⟩
          intro w hw
          by_cases hs : (store.find? (fun p => p.1 == uid)).isSome = true
          · simp only [hs, if_true, List.mem_singleton] at hw
            subst hw
            exact ⟨rfl, rfl, by simp [writeFields], hs⟩
          · simp only [hs, if_false, List.mem_singleton] at hw
            subst hw
            refine ⟨rfl, rfl, by simp [writeFields], ?_⟩
            exact Option.not_isSome_iff_eq_none.mp hs

/-- Witness for C3 (amended) at a successful request of a user already
present in the store, whose document is updated rather than created. -/
theorem c3_single_write_amended_witness :
    ([WriteOp.update "u2" [("Events_URL", StoreVal.s "U2"), ("sessionCookie", StoreVal.s "C2")]].length = 1)
    ∧ ∀ w ∈ [WriteOp.update "u2" [("Events_URL", StoreVal.s "U2"), ("sessionCookie", StoreVal.s "C2")]],
      writeId w = "u2" ∧
      writeFields w = [("Events_URL", StoreVal.s "U2"), ("sessionCookie", StoreVal.s "C2")] ∧
      StoreVal.serverTimestamp ∉ (writeFields w).map Prod.snd ∧
      (match w with
       | .set _ _ => ([("u2", ([] : Doc))].find? (fun p => p.1 == "u2")) = none
       | .update _ _ => ([("u2", ([] : Doc))].find? (fun p => p.1 == "u2")).isSome = true) :=
  c3_single_write_amended (fun _ => .resp 200 "" (some "idle"))
    (fun _ => .resp 200 "" false (some "C1"))
    (fun _ => .resp 200 "" (some "finished") none)
    200 "" (some (.obj [("resultObject", .arr [])])) (fun _ => .exc "unused")
    "U2" "C2" "u2" [("u2", [])] ⟨[], "u2", "U2"⟩
    [.update "u2" [("Events_URL", .s "U2"), ("sessionCookie", .s "C2")]] ⟨true, true, true⟩ rfl
